import Mathlib

/-!
Shallow embedding of `drivers/hid/i2c-hid/i2c-hid-acpi.c`: the ACPI
enumeration and power-management glue for HID-over-I2C devices.

The firmware/kernel environment visible to the adapter (the ACPI handle of
the client device, the result of `acpi_bus_get_device`, the ACPI identifiers
of the companion device, the result of the `_DSM` evaluation, the FADT
low-power-S0 flag, allocation success, and the result the external core
driver's probe returns) is captured in `AcpiEnv`.  The external calls the
adapter performs are recorded in an event trace so that ordering and
at-most-once properties can be stated.  Machine integers are modelled as
`Int`/`Nat` with explicit `% 2^16` where the `u16` assignment truncates.
-/

/-- Errno values used by the adapter (returned negated, as in the kernel). -/
def ENODEV : Int := 19

def ENOMEM : Int := 12

def ENOENT : Int := 2

/-- `ACPI_STATE_D3_COLD` power-state constant. -/
def ACPI_STATE_D3_COLD : Nat := 4

/-- Observable external calls made by the adapter, in program order. -/
inductive Event where
  | dsmEval : Event
  | fixUpPower : Event
  | setWakeupCapable : Bool → Event
  | setWakeupEnable : Bool → Event
  | coreProbe : Nat → Event
  | coreShutdown : Event
  | setPower : Nat → Event
deriving DecidableEq, Repr

/-- Environment the adapter runs against: firmware answers and the behaviour
of the external collaborators, fixed for one invocation. -/
structure AcpiEnv where
  /-- `ACPI_HANDLE(&client->dev)` is non-NULL. -/
  hasHandle : Bool
  /-- `acpi_bus_get_device` returns a nonzero (failure) status. -/
  busGetDeviceFails : Bool
  /-- ACPI identifiers (_HID/_CIDs) of the companion device. -/
  deviceIds : List String
  /-- Result of `acpi_evaluate_dsm_typed` for the HID GUID: `none` models a
  NULL return, `some v` an `ACPI_TYPE_INTEGER` object with value `v`. -/
  dsmResult : Option Nat
  /-- `acpi_gbl_FADT.flags & ACPI_FADT_LOW_POWER_S0` is nonzero. -/
  lowPowerS0 : Bool
  /-- `ACPI_COMPANION(dev)` is non-NULL. -/
  hasCompanion : Bool
  /-- `devm_kzalloc` returns NULL. -/
  allocFails : Bool
  /-- Value returned by the external `i2c_hid_core_probe`. -/
  coreProbeResult : Int
deriving DecidableEq, Repr

/-- Wakeup-related state of `client->dev`, written through
`device_set_wakeup_capable` / `device_set_wakeup_enable`. -/
structure DevState where
  wakeupCapable : Bool
  wakeupEnabled : Bool
deriving DecidableEq, Repr

/-- The per-device adapter record `struct i2c_hid_acpi`; the subclass and
client pointers are wiring, the proof-relevant field is `power_fixed`.
`devm_kzalloc` zero-fills it, so the record starts with the flag clear. -/
structure I2cHidAcpi where
  power_fixed : Bool
deriving DecidableEq, Repr

/-- The blacklist table `i2c_hid_acpi_blacklist`: the CHPN0001 device has a
_CID of PNP0C50 but is not HID compatible. -/
def i2c_hid_acpi_blacklist : List String := ["CHPN0001"]

/-- `acpi_match_device_ids`: returns 0 when some table entry matches one of
the device's identifiers, a negative errno otherwise (only the comparison
with 0 is ever used by this file). -/
def acpi_match_device_ids (ids : List String) (table : List String) : Int :=
  if table.any (fun t => ids.contains t) then 0 else -ENOENT

/-- `i2c_hid_acpi_get_descriptor`: look up the ACPI device, reject
blacklisted identities, evaluate the `_DSM`, and return the integer result
truncated to `u16` (the assignment to `hid_descriptor_address`);
failures return `-ENODEV`.  The second component is the trace of external
calls (here: whether the `_DSM` was evaluated). -/
def i2c_hid_acpi_get_descriptor (env : AcpiEnv) : Int × List Event :=
  if !env.hasHandle || env.busGetDeviceFails then
    (-ENODEV, [])
  else if acpi_match_device_ids env.deviceIds i2c_hid_acpi_blacklist = 0 then
    (-ENODEV, [])
  else
    match env.dsmResult with
    | none => (-ENODEV, [Event.dsmEval])
    | some v => (((v % 2 ^ 16 : Nat) : Int), [Event.dsmEval])

/-- `i2c_hid_acpi_power_up_device`: apply `acpi_device_fix_up_power` only the
first time, guarded by the `power_fixed` flag; always returns 0. -/
def i2c_hid_acpi_power_up_device (env : AcpiEnv) (ihid : I2cHidAcpi) :
    Int × I2cHidAcpi × List Event :=
  if ihid.power_fixed then
    (0, ihid, [])
  else
    let ihid' : I2cHidAcpi := { power_fixed := true }
    if env.hasCompanion then
      (0, ihid', [Event.fixUpPower])
    else
      (0, ihid', [])

/-- `i2c_hid_acpi_probe`: allocate the record, run descriptor discovery,
apply the wakeup flags when the FADT advertises low-power S0, and hand off
to `i2c_hid_core_probe` with the discovered descriptor address (`u16`
assignment again truncates).  Returns the status, the final wakeup state of
the device, and the trace of external calls. -/
def i2c_hid_acpi_probe (env : AcpiEnv) (dev : DevState) :
    Int × DevState × List Event :=
  if env.allocFails then
    (-ENOMEM, dev, [])
  else
    let gd := i2c_hid_acpi_get_descriptor env
    if gd.1 < 0 then
      (gd.1, dev, gd.2)
    else
      let hid_descriptor_address : Nat := gd.1.toNat % 2 ^ 16
      let step :=
        if env.lowPowerS0 then
          (DevState.mk true false,
            gd.2 ++ [Event.setWakeupCapable true, Event.setWakeupEnable false])
        else
          (dev, gd.2)
      (env.coreProbeResult, step.1,
        step.2 ++ [Event.coreProbe hid_descriptor_address])

/-- `i2c_hid_acpi_shutdown`: forward to `i2c_hid_core_shutdown`, then put
the ACPI companion in D3-cold. -/
def i2c_hid_acpi_shutdown (_env : AcpiEnv) : List Event :=
  [Event.coreShutdown, Event.setPower ACPI_STATE_D3_COLD]

/-- A fully successful environment: ACPI device present, not blacklisted,
`_DSM` yields 70000 (wider than 16 bits), FADT advertises low-power S0,
allocation succeeds, core probe succeeds. -/
def envOk : AcpiEnv :=
  { hasHandle := true, busGetDeviceFails := false, deviceIds := ["PNP0C50"],
    dsmResult := some 70000, lowPowerS0 := true, hasCompanion := true,
    allocFails := false, coreProbeResult := 0 }

/-- Like `envOk` but the FADT does not advertise low-power S0 and the
`_DSM` yields 1. -/
def envNoS0 : AcpiEnv :=
  { hasHandle := true, busGetDeviceFails := false, deviceIds := ["PNP0C50"],
    dsmResult := some 1, lowPowerS0 := false, hasCompanion := true,
    allocFails := false, coreProbeResult := 0 }

/-- Like `envOk` but the `_DSM` evaluation returns NULL. -/
def envDsmFail : AcpiEnv :=
  { hasHandle := true, busGetDeviceFails := false, deviceIds := ["PNP0C50"],
    dsmResult := none, lowPowerS0 := true, hasCompanion := true,
    allocFails := false, coreProbeResult := 0 }

/-- Like `envOk` but the companion is the blacklisted CHPN0001 device. -/
def envBlacklisted : AcpiEnv :=
  { hasHandle := true, busGetDeviceFails := false,
    deviceIds := ["CHPN0001", "PNP0C50"],
    dsmResult := some 32, lowPowerS0 := true, hasCompanion := true,
    allocFails := false, coreProbeResult := 0 }

/-- Like `envOk` but the external core probe fails with `-EIO`. -/
def envCoreFails : AcpiEnv :=
  { hasHandle := true, busGetDeviceFails := false, deviceIds := ["PNP0C50"],
    dsmResult := some 70000, lowPowerS0 := true, hasCompanion := true,
    allocFails := false, coreProbeResult := -5 }

/-- Device with both wakeup flags initially clear. -/
def devZero : DevState := { wakeupCapable := false, wakeupEnabled := false }

lemma get_descriptor_no_coreProbe (env : AcpiEnv) (a : Nat) :
    Event.coreProbe a ∉ (i2c_hid_acpi_get_descriptor env).2 := by
  unfold i2c_hid_acpi_get_descriptor
  split
  · simp
  · split
    · simp
    · cases env.dsmResult <;> simp

lemma get_descriptor_dsm_count (env : AcpiEnv) :
    (i2c_hid_acpi_get_descriptor env).2.count Event.dsmEval ≤ 1 := by
  unfold i2c_hid_acpi_get_descriptor
  split
  · simp
  · split
    · simp
    · cases env.dsmResult <;> simp

lemma get_descriptor_fail (env : AcpiEnv)
    (h : env.hasHandle = false ∨ env.busGetDeviceFails = true ∨
      acpi_match_device_ids env.deviceIds i2c_hid_acpi_blacklist = 0 ∨
      env.dsmResult = none) :
    (i2c_hid_acpi_get_descriptor env).1 = -ENODEV := by
  unfold i2c_hid_acpi_get_descriptor
  rcases h with h | h | h | h
  · simp [h]
  · simp [h]
  · by_cases hh : (!env.hasHandle || env.busGetDeviceFails) = true
    · simp [hh]
    · simp [hh, h]
  · by_cases hh : (!env.hasHandle || env.busGetDeviceFails) = true
    · simp [hh]
    · by_cases hb :
        acpi_match_device_ids env.deviceIds i2c_hid_acpi_blacklist = 0
      · simp [hh, hb]
      · simp [hh, hb, h]

lemma get_descriptor_ok (env : AcpiEnv) (v : Nat)
    (hh : env.hasHandle = true) (hbus : env.busGetDeviceFails = false)
    (hbl : acpi_match_device_ids env.deviceIds i2c_hid_acpi_blacklist ≠ 0)
    (hdsm : env.dsmResult = some v) :
    i2c_hid_acpi_get_descriptor env =
      (((v % 2 ^ 16 : Nat) : Int), [Event.dsmEval]) := by
  unfold i2c_hid_acpi_get_descriptor
  simp [hh, hbus, hbl, hdsm]

lemma probe_ok (env : AcpiEnv) (dev : DevState) (v : Nat)
    (halloc : env.allocFails = false)
    (hh : env.hasHandle = true) (hbus : env.busGetDeviceFails = false)
    (hbl : acpi_match_device_ids env.deviceIds i2c_hid_acpi_blacklist ≠ 0)
    (hdsm : env.dsmResult = some v) :
    i2c_hid_acpi_probe env dev =
      (env.coreProbeResult,
        (if env.lowPowerS0 then DevState.mk true false else dev),
        (if env.lowPowerS0 then
          [Event.dsmEval, Event.setWakeupCapable true,
            Event.setWakeupEnable false, Event.coreProbe (v % 2 ^ 16)]
        else
          [Event.dsmEval, Event.coreProbe (v % 2 ^ 16)])) := by
  unfold i2c_hid_acpi_probe
  rw [get_descriptor_ok env v hh hbus hbl hdsm]
  have hge : ¬(((v % 2 ^ 16 : Nat) : Int) < 0) := by
    exact not_lt.mpr (Int.natCast_nonneg _)
  have htrunc : ((v % 2 ^ 16 : Nat) : Int).toNat % 2 ^ 16 = v % 2 ^ 16 := by
    rw [Int.toNat_natCast]
    exact Nat.mod_mod_of_dvd v (dvd_refl _)
  simp only [halloc, Bool.false_eq_true, if_false, hge, htrunc]
  by_cases hs0 : env.lowPowerS0 = true
  · simp [hs0]
  · simp [hs0]

/-- Claim C1: when descriptor discovery succeeds (ACPI device found, not
blacklisted, `_DSM` returns an integer) and the record allocation succeeds,
the probe routine forwards control to the core driver's probe entry point
with the descriptor address obtained from the `_DSM` call, returning the
core probe's status. -/
theorem C1_probe_forwards_to_core (env : AcpiEnv) (dev : DevState) (v : Nat)
    (halloc : env.allocFails = false)
    (hh : env.hasHandle = true) (hbus : env.busGetDeviceFails = false)
    (hbl : acpi_match_device_ids env.deviceIds i2c_hid_acpi_blacklist ≠ 0)
    (hdsm : env.dsmResult = some v) :
    (i2c_hid_acpi_probe env dev).1 = env.coreProbeResult ∧
      (i2c_hid_acpi_probe env dev).2.2.getLast? =
        some (Event.coreProbe (v % 2 ^ 16)) := by
  rw [probe_ok env dev v halloc hh hbus hbl hdsm]
  by_cases hs0 : env.lowPowerS0 = true <;> simp [hs0]

/-- Witness for C1 at the concrete environment `envOk`. -/
theorem C1_witness :
    (i2c_hid_acpi_probe envOk devZero).1 = envOk.coreProbeResult ∧
      (i2c_hid_acpi_probe envOk devZero).2.2.getLast? =
        some (Event.coreProbe (70000 % 2 ^ 16)) :=
  C1_probe_forwards_to_core envOk devZero 70000 rfl rfl rfl (by decide) rfl

/-- Claim C2: each of the four failure causes (missing ACPI companion
device, blacklisted identity, failed `_DSM` evaluation, allocation failure)
makes the probe routine return a negative status without invoking the core
driver's probe entry point. -/
theorem C2_failures_abort (env : AcpiEnv) (dev : DevState)
    (h : env.hasHandle = false ∨ env.busGetDeviceFails = true ∨
      acpi_match_device_ids env.deviceIds i2c_hid_acpi_blacklist = 0 ∨
      env.dsmResult = none ∨ env.allocFails = true) :
    (i2c_hid_acpi_probe env dev).1 < 0 ∧
      ∀ a, Event.coreProbe a ∉ (i2c_hid_acpi_probe env dev).2.2 := by
  by_cases hA : env.allocFails = true
  · unfold i2c_hid_acpi_probe
    simp [hA, ENOMEM]
  · have hd : env.hasHandle = false ∨ env.busGetDeviceFails = true ∨
        acpi_match_device_ids env.deviceIds i2c_hid_acpi_blacklist = 0 ∨
        env.dsmResult = none := by
      rcases h with h | h | h | h | h
      · exact Or.inl h
      · exact Or.inr (Or.inl h)
      · exact Or.inr (Or.inr (Or.inl h))
      · exact Or.inr (Or.inr (Or.inr h))
      · exact absurd h hA
    have hfail := get_descriptor_fail env hd
    unfold i2c_hid_acpi_probe
    have hA' : env.allocFails = false := by
      cases hx : env.allocFails
      · rfl
      · exact absurd hx hA
    simp only [hA', Bool.false_eq_true, if_false, hfail]
    constructor
    · simp [ENODEV]
    · intro a
      simp only [ENODEV]
      norm_num
      exact get_descriptor_no_coreProbe env a

/-- Witness for C2 at the concrete environment `envDsmFail` (the `_DSM`
evaluation fails). -/
theorem C2_witness :
    (i2c_hid_acpi_probe envDsmFail devZero).1 < 0 ∧
      ∀ a, Event.coreProbe a ∉ (i2c_hid_acpi_probe envDsmFail devZero).2.2 :=
  C2_failures_abort envDsmFail devZero (by decide)

/-- Claim C3: the ACPI power fix-up is applied at most once per record.
On a fresh record (flag clear) the first call sets the flag and applies the
fix-up exactly when a companion exists; any call on a record with the flag
set returns success, changes nothing and applies no fix-up; calling the
callback twice leaves the same state (and no further events) as calling it
once. -/
theorem C3_power_fixup_once (env : AcpiEnv) (ihid : I2cHidAcpi)
    (h : ihid.power_fixed = false) :
    (i2c_hid_acpi_power_up_device env ihid).2.1.power_fixed = true ∧
      ((i2c_hid_acpi_power_up_device env ihid).2.2 = [Event.fixUpPower] ↔
        env.hasCompanion = true) ∧
      (∀ s : I2cHidAcpi, s.power_fixed = true →
        i2c_hid_acpi_power_up_device env s = (0, s, [])) ∧
      i2c_hid_acpi_power_up_device env
          (i2c_hid_acpi_power_up_device env ihid).2.1 =
        (0, (i2c_hid_acpi_power_up_device env ihid).2.1, []) := by
  have hset : ∀ s : I2cHidAcpi, s.power_fixed = true →
      i2c_hid_acpi_power_up_device env s = (0, s, []) := by
    intro s hs
    unfold i2c_hid_acpi_power_up_device
    simp [hs]
  have hfst : (i2c_hid_acpi_power_up_device env ihid).2.1.power_fixed = true := by
    unfold i2c_hid_acpi_power_up_device
    simp only [h, Bool.false_eq_true, if_false]
    by_cases hc : env.hasCompanion = true <;> simp [hc]
  refine ⟨hfst, ?_, hset, hset _ hfst⟩
  unfold i2c_hid_acpi_power_up_device
  simp only [h, Bool.false_eq_true, if_false]
  by_cases hc : env.hasCompanion = true <;> simp [hc]

/-- Witness for C3 at `envOk` and a fresh record. -/
theorem C3_witness :
    (i2c_hid_acpi_power_up_device envOk ⟨false⟩).2.1.power_fixed = true ∧
      ((i2c_hid_acpi_power_up_device envOk ⟨false⟩).2.2 = [Event.fixUpPower] ↔
        envOk.hasCompanion = true) ∧
      (∀ s : I2cHidAcpi, s.power_fixed = true →
        i2c_hid_acpi_power_up_device envOk s = (0, s, [])) ∧
      i2c_hid_acpi_power_up_device envOk
          (i2c_hid_acpi_power_up_device envOk ⟨false⟩).2.1 =
        (0, (i2c_hid_acpi_power_up_device envOk ⟨false⟩).2.1, []) :=
  C3_power_fixup_once envOk ⟨false⟩ rfl

/-- Claim C4: when the device's ACPI identity contains the blacklisted
CHPN0001 identifier, descriptor discovery returns `-ENODEV` without ever
evaluating the `_DSM`, and the probe aborts without reaching the core
driver's probe entry point. -/
theorem C4_blacklist_aborts (env : AcpiEnv) (dev : DevState)
    (h : "CHPN0001" ∈ env.deviceIds) :
    (i2c_hid_acpi_get_descriptor env).1 = -ENODEV ∧
      Event.dsmEval ∉ (i2c_hid_acpi_get_descriptor env).2 ∧
      (i2c_hid_acpi_probe env dev).1 < 0 ∧
      ∀ a, Event.coreProbe a ∉ (i2c_hid_acpi_probe env dev).2.2 := by
  have hc : env.deviceIds.contains "CHPN0001" = true := List.elem_iff.mpr h
  have hbl : acpi_match_device_ids env.deviceIds i2c_hid_acpi_blacklist = 0 := by
    unfold acpi_match_device_ids i2c_hid_acpi_blacklist
    simp [h, hc]
  have habort := C2_failures_abort env dev (Or.inr (Or.inr (Or.inl hbl)))
  refine ⟨get_descriptor_fail env (Or.inr (Or.inr (Or.inl hbl))), ?_,
    habort.1, habort.2⟩
  unfold i2c_hid_acpi_get_descriptor
  by_cases hh : (!env.hasHandle || env.busGetDeviceFails) = true
  · simp [hh]
  · simp [hh, hbl]

/-- Witness for C4 at the concrete environment `envBlacklisted`. -/
theorem C4_witness :
    (i2c_hid_acpi_get_descriptor envBlacklisted).1 = -ENODEV ∧
      Event.dsmEval ∉ (i2c_hid_acpi_get_descriptor envBlacklisted).2 ∧
      (i2c_hid_acpi_probe envBlacklisted devZero).1 < 0 ∧
      ∀ a, Event.coreProbe a ∉ (i2c_hid_acpi_probe envBlacklisted devZero).2.2 :=
  C4_blacklist_aborts envBlacklisted devZero (by decide)

/-- Counterexample to claim C5 as stated: on a firmware without the
low-power-S0 FADT flag the bind succeeds (the core probe is reached and
returns 0), yet no wakeup flag is written — the device stays not
wakeup-capable and the trace holds no wakeup-capability call. -/
theorem C5_counterexample :
    (i2c_hid_acpi_probe envNoS0 devZero).1 = 0 ∧
      Event.coreProbe 1 ∈ (i2c_hid_acpi_probe envNoS0 devZero).2.2 ∧
      (i2c_hid_acpi_probe envNoS0 devZero).2.1.wakeupCapable = false ∧
      Event.setWakeupCapable true ∉ (i2c_hid_acpi_probe envNoS0 devZero).2.2 := by
  decide

/-- Claim C5 amended: during every successful bind on a system whose FADT
advertises low-power S0, the probe marks the device wakeup-capable and sets
the wakeup-enable state to disabled before handing off to the core driver's
probe entry point (the hand-off is the last event of the trace). -/
theorem C5_amended_wakeup_flags (env : AcpiEnv) (dev : DevState) (v : Nat)
    (hS0 : env.lowPowerS0 = true)
    (halloc : env.allocFails = false)
    (hh : env.hasHandle = true) (hbus : env.busGetDeviceFails = false)
    (hbl : acpi_match_device_ids env.deviceIds i2c_hid_acpi_blacklist ≠ 0)
    (hdsm : env.dsmResult = some v) :
    (i2c_hid_acpi_probe env dev).2.1 = DevState.mk true false ∧
      (i2c_hid_acpi_probe env dev).2.2 =
        [Event.dsmEval, Event.setWakeupCapable true,
          Event.setWakeupEnable false, Event.coreProbe (v % 2 ^ 16)] := by
  rw [probe_ok env dev v halloc hh hbus hbl hdsm]
  simp [hS0]

/-- Witness for the amended C5 at the concrete environment `envOk`. -/
theorem C5_amended_witness :
    (i2c_hid_acpi_probe envOk devZero).2.1 = DevState.mk true false ∧
      (i2c_hid_acpi_probe envOk devZero).2.2 =
        [Event.dsmEval, Event.setWakeupCapable true,
          Event.setWakeupEnable false, Event.coreProbe (70000 % 2 ^ 16)] :=
  C5_amended_wakeup_flags envOk devZero 70000 rfl rfl rfl rfl (by decide) rfl

/-- Claim C6: every shutdown invocation forwards to the core driver's
shutdown entry point exactly once and performs the D3-cold power-state
transition exactly once, with the core shutdown strictly first. -/
theorem C6_shutdown_order (env : AcpiEnv) :
    (i2c_hid_acpi_shutdown env).count Event.coreShutdown = 1 ∧
      (i2c_hid_acpi_shutdown env).count
        (Event.setPower ACPI_STATE_D3_COLD) = 1 ∧
      (i2c_hid_acpi_shutdown env).indexOf Event.coreShutdown <
        (i2c_hid_acpi_shutdown env).indexOf
          (Event.setPower ACPI_STATE_D3_COLD) := by
  have hs : i2c_hid_acpi_shutdown env =
      [Event.coreShutdown, Event.setPower ACPI_STATE_D3_COLD] := rfl
  rw [hs]
  refine ⟨by decide, by decide, by decide⟩

/-- Claim C7: within one probe invocation the `_DSM` is evaluated at most
once, whatever the environment makes the probe do. -/
theorem C7_dsm_at_most_once (env : AcpiEnv) (dev : DevState) :
    (i2c_hid_acpi_probe env dev).2.2.count Event.dsmEval ≤ 1 := by
  have hgd := get_descriptor_dsm_count env
  by_cases hA : env.allocFails = true
  · unfold i2c_hid_acpi_probe
    simp [hA]
  · have hA' : env.allocFails = false := by
      cases hx : env.allocFails
      · rfl
      · exact absurd hx hA
    unfold i2c_hid_acpi_probe
    simp only [hA', Bool.false_eq_true, if_false]
    by_cases hlt : (i2c_hid_acpi_get_descriptor env).1 < 0
    · simpa [hlt] using hgd
    · by_cases hs0 : env.lowPowerS0 = true
      · simp only [hlt, if_false, hs0, if_true]
        simp only [List.count_append, List.count_cons, List.count_nil]
        simp
        omega
      · simp only [hlt, if_false, hs0, Bool.false_eq_true, if_false]
        simp only [List.count_append, List.count_cons, List.count_nil]
        simp
        omega

/-- Claim C8: the power-up callback returns 0 for every record state and
every environment, whether or not an ACPI companion exists. -/
theorem C8_power_up_returns_zero (env : AcpiEnv) (ihid : I2cHidAcpi) :
    (i2c_hid_acpi_power_up_device env ihid).1 = 0 := by
  unfold i2c_hid_acpi_power_up_device
  split
  · rfl
  · split <;> rfl

/-- Claim C9: the descriptor address is the `_DSM` integer reduced modulo
`2 ^ 16`; a successful discovery therefore returns a value in `[0, 65536)`,
and that truncated value is what the core probe is handed. -/
theorem C9_descriptor_truncated (env : AcpiEnv) (dev : DevState) (v : Nat)
    (hh : env.hasHandle = true) (hbus : env.busGetDeviceFails = false)
    (hbl : acpi_match_device_ids env.deviceIds i2c_hid_acpi_blacklist ≠ 0)
    (hdsm : env.dsmResult = some v) :
    (i2c_hid_acpi_get_descriptor env).1 = ((v % 2 ^ 16 : Nat) : Int) ∧
      0 ≤ (i2c_hid_acpi_get_descriptor env).1 ∧
      (i2c_hid_acpi_get_descriptor env).1 < 65536 ∧
      (env.allocFails = false →
        Event.coreProbe (v % 2 ^ 16) ∈ (i2c_hid_acpi_probe env dev).2.2) := by
  have hgd := get_descriptor_ok env v hh hbus hbl hdsm
  refine ⟨by rw [hgd], by rw [hgd]; exact Int.natCast_nonneg _, ?_, ?_⟩
  · rw [hgd]
    show ((v % 2 ^ 16 : Nat) : Int) < 65536
    have h1 : v % 2 ^ 16 < 2 ^ 16 := Nat.mod_lt v (by norm_num)
    exact_mod_cast h1
  · intro halloc
    rw [probe_ok env dev v halloc hh hbus hbl hdsm]
    by_cases hs0 : env.lowPowerS0 = true <;> simp [hs0]

/-- Witness for C9 at `envOk`, where the `_DSM` yields 70000 and the core
probe receives the truncation 70000 mod 65536 = 4464. -/
theorem C9_witness :
    (i2c_hid_acpi_get_descriptor envOk).1 = ((70000 % 2 ^ 16 : Nat) : Int) ∧
      0 ≤ (i2c_hid_acpi_get_descriptor envOk).1 ∧
      (i2c_hid_acpi_get_descriptor envOk).1 < 65536 ∧
      (envOk.allocFails = false →
        Event.coreProbe (70000 % 2 ^ 16) ∈
          (i2c_hid_acpi_probe envOk devZero).2.2) :=
  C9_descriptor_truncated envOk devZero 70000 rfl rfl (by decide) rfl

/-- Claim C10: on a low-power-S0 system, a probe whose descriptor discovery
succeeds but whose core probe fails still leaves the wakeup flags as it set
them: the bind aborts with the core's negative status, the device stays
wakeup-capable with wakeup-enable disabled, and the hand-off to the core is
the last event — nothing afterwards reverts the flags. -/
theorem C10_wakeup_not_reverted (env : AcpiEnv) (dev : DevState) (v : Nat)
    (hS0 : env.lowPowerS0 = true)
    (halloc : env.allocFails = false)
    (hh : env.hasHandle = true) (hbus : env.busGetDeviceFails = false)
    (hbl : acpi_match_device_ids env.deviceIds i2c_hid_acpi_blacklist ≠ 0)
    (hdsm : env.dsmResult = some v)
    (hcore : env.coreProbeResult < 0) :
    (i2c_hid_acpi_probe env dev).1 < 0 ∧
      (i2c_hid_acpi_probe env dev).2.1.wakeupCapable = true ∧
      (i2c_hid_acpi_probe env dev).2.1.wakeupEnabled = false ∧
      (i2c_hid_acpi_probe env dev).2.2.getLast? =
        some (Event.coreProbe (v % 2 ^ 16)) := by
  rw [probe_ok env dev v halloc hh hbus hbl hdsm]
  simp [hS0, hcore]

/-- Witness for C10 at `envCoreFails`, where the core probe returns -5. -/
theorem C10_witness :
    (i2c_hid_acpi_probe envCoreFails devZero).1 < 0 ∧
      (i2c_hid_acpi_probe envCoreFails devZero).2.1.wakeupCapable = true ∧
      (i2c_hid_acpi_probe envCoreFails devZero).2.1.wakeupEnabled = false ∧
      (i2c_hid_acpi_probe envCoreFails devZero).2.2.getLast? =
        some (Event.coreProbe (70000 % 2 ^ 16)) :=
  C10_wakeup_not_reverted envCoreFails devZero 70000 rfl rfl rfl rfl
    (by decide) rfl (by decide)
